import Mathlib

/-!
# Verification of the `parameters` device-parameter store

Shallow embedding of the C sources `par.c` (V2.1.0, the active revision) and
`par_nvm.c` (V1.0.1, the active revision) of the
GeneralEmbeddedCLibraries/parameters repository, together with theorems that
settle the claims about the live value store and the NVM persistence layer.

Modelling conventions:
* Machine integers are modelled as `Nat` / `Int` with explicit truncation
  (`% 2^w`) where the C code truncates; values held in the typed live store
  are `Int`s constrained to the C type's range by hypotheses.
* The packed live byte buffer of `par.c` is abstracted as one `Int` slot per
  parameter (`List Int`, indexed by parameter number): the layout pass of
  `par_calc_ram_usage` assigns each parameter a disjoint, type-sized region
  of the buffer, so a typed write to one parameter's offset never aliases
  another parameter's slot, and a typed read returns the last typed write.
* `PAR_ASSERT` is a configuration-supplied assertion macro (empty in release
  builds); it never produces a return status, so it is modelled as a no-op.
  The returned-status logic is translated exactly.
* The build configuration modelled is `PAR_CFG_NVM_EN = 1`,
  `PAR_CFG_MUTEX_EN = 1`, `PAR_CFG_AUTO_SAVE = 0`,
  `PAR_CFG_TABLE_ID_CHECK_EN = 0` (the configuration the specification
  describes).  The externally supplied mutex primitive is modelled by a
  boolean environment flag `mutexOk` giving the result of
  `par_if_aquire_mutex`.
* The float type `ePAR_TYPE_F32` is left out of the embedding: IEEE-754
  arithmetic has no shallow embedding here. All theorems about typed access
  range over the six integer types, whose clamp logic in the source is
  textually identical to the float branch.
-/

/-! ## Parameter status codes

`par.c` V2.1.0 composes its status as a bitmask.  The matching `par.h`
revision is not among the sources (`src/par.h` holds the older V1.0.0
headers), so the numeric values are modelled from the spec's taxonomy
(§7: Ok, Error, ErrorInit, ErrorNvm, ErrorCrc, WarnSetToDefault,
WarnNvmRewritten, WarnNoPersistent) in the bit order fixed by the
`gs_status` debug-string table of `par.c`. -/

/-- Normal operation. -/
def ePAR_OK : Nat := 0x00

/-- General parameter error. -/
def ePAR_ERROR : Nat := 0x01

/-- Used before/after the valid lifecycle window. -/
def ePAR_ERROR_INIT : Nat := 0x02

/-- Underlying NVM I/O failure. -/
def ePAR_ERROR_NVM : Nat := 0x04

/-- Integrity (CRC) check failed. -/
def ePAR_ERROR_CRC : Nat := 0x08

/-- Legacy V1.0.0 status code (src/par.h line 38): parameter limited to max. -/
def ePAR_WAR_LIM_TO_MAX : Nat := 0x01

/-- Legacy V1.0.0 status code (src/par.h line 39): parameter limited to min. -/
def ePAR_WAR_LIM_TO_MIN : Nat := 0x02

/-! ## Data model of the live value store (`par.c`) -/

/-- Parameter type enumeration `par_type_list_t` (float excluded, see header
comment). -/
inductive ParType where
  | u8 | i8 | u16 | i16 | u32 | i32
deriving Repr, DecidableEq, Inhabited

/-- Parameter R/W access `par_io_acess_t`. -/
inductive ParAccess where
  | ro | rw
deriving Repr, DecidableEq, Inhabited

/-- Smallest value representable in a C type. -/
def typeMin : ParType → Int
  | .u8 => 0 | .i8 => -128 | .u16 => 0 | .i16 => -32768
  | .u32 => 0 | .i32 => -2147483648

/-- Largest value representable in a C type. -/
def typeMax : ParType → Int
  | .u8 => 255 | .i8 => 127 | .u16 => 65535 | .i16 => 32767
  | .u32 => 4294967295 | .i32 => 2147483647

/-- `v` lies in the value range of C type `t`. -/
def inTypeRange (t : ParType) (v : Int) : Prop :=
  typeMin t ≤ v ∧ v ≤ typeMax t

instance (t : ParType) (v : Int) : Decidable (inTypeRange t v) := by
  unfold inTypeRange; infer_instance

/-- Parameter descriptor `par_cfg_t`: id, range, default, type, access and
persistence flag (name/unit strings are irrelevant to the claims).  The
`min`/`max`/`def` union fields are modelled as `Int`s viewed through the
descriptor's type, as the C code reads them. -/
structure ParCfg where
  id : Nat
  min : Int
  max : Int
  defVal : Int
  type : ParType
  access : ParAccess
  persistant : Bool
deriving Repr, DecidableEq, Inhabited

/-- Module state of `par.c`: the init guard `gb_is_init` and the live value
buffer (one slot per parameter, see header comment). -/
structure ParState where
  isInit : Bool
  vals : List Int
deriving Repr, DecidableEq, Inhabited

/-- External environment: result of the `par_if_aquire_mutex` platform
primitive. -/
structure ParEnv where
  mutexOk : Bool
deriving Repr, DecidableEq, Inhabited

/-! ## Typed set kernels (`par_set_u8` … `par_set_i32`)

Each C kernel reads the descriptor's `min`/`max` through the union view of
its own type and saturates.  For a well-formed table (union fields in the
type's range) the unsigned and signed C comparisons coincide with `Int`
comparisons, so the six kernels share the `Int`-level body below. -/

/-- `par_set_u8` (par.c:1054): saturating store of an unsigned 8-bit value. -/
def par_set_u8 (tbl : List ParCfg) (vals : List Int) (num : Nat) (v : Int) : List Int :=
  let cfg := tbl.getD num default
  if v > cfg.max then vals.set num cfg.max
  else if v < cfg.min then vals.set num cfg.min
  else vals.set num v

/-- `par_set_i8` (par.c:1086). -/
def par_set_i8 (tbl : List ParCfg) (vals : List Int) (num : Nat) (v : Int) : List Int :=
  let cfg := tbl.getD num default
  if v > cfg.max then vals.set num cfg.max
  else if v < cfg.min then vals.set num cfg.min
  else vals.set num v

/-- `par_set_u16` (par.c:1118). -/
def par_set_u16 (tbl : List ParCfg) (vals : List Int) (num : Nat) (v : Int) : List Int :=
  let cfg := tbl.getD num default
  if v > cfg.max then vals.set num cfg.max
  else if v < cfg.min then vals.set num cfg.min
  else vals.set num v

/-- `par_set_i16` (par.c:1150). -/
def par_set_i16 (tbl : List ParCfg) (vals : List Int) (num : Nat) (v : Int) : List Int :=
  let cfg := tbl.getD num default
  if v > cfg.max then vals.set num cfg.max
  else if v < cfg.min then vals.set num cfg.min
  else vals.set num v

/-- `par_set_u32` (par.c:1182). -/
def par_set_u32 (tbl : List ParCfg) (vals : List Int) (num : Nat) (v : Int) : List Int :=
  let cfg := tbl.getD num default
  if v > cfg.max then vals.set num cfg.max
  else if v < cfg.min then vals.set num cfg.min
  else vals.set num v

/-- `par_set_i32` (par.c:1214). -/
def par_set_i32 (tbl : List ParCfg) (vals : List Int) (num : Nat) (v : Int) : List Int :=
  let cfg := tbl.getD num default
  if v > cfg.max then vals.set num cfg.max
  else if v < cfg.min then vals.set num cfg.min
  else vals.set num v

/-- `par_set` (par.c:235): requires the init guard and a valid parameter
number, takes the mutex, then type-dispatches to a saturating kernel.  The
kernels always return `ePAR_OK`; no access-rights check appears in the
source. -/
def par_set (env : ParEnv) (tbl : List ParCfg) (s : ParState) (num : Nat) (v : Int) :
    Nat × ParState :=
  if s.isInit then
    if num < tbl.length then
      if env.mutexOk then
        let vals2 :=
          match (tbl.getD num default).type with
          | .u8 => par_set_u8 tbl s.vals num v
          | .i8 => par_set_i8 tbl s.vals num v
          | .u16 => par_set_u16 tbl s.vals num v
          | .i16 => par_set_i16 tbl s.vals num v
          | .u32 => par_set_u32 tbl s.vals num v
          | .i32 => par_set_i32 tbl s.vals num v
        (ePAR_OK, { s with vals := vals2 })
      else (ePAR_ERROR, s)
    else (ePAR_ERROR, s)
  else (ePAR_ERROR_INIT, s)

/-- `par_get` (par.c:405): the source checks the init guard and the bounds
only through `PAR_ASSERT`; at runtime it takes the mutex and reads the live
slot unconditionally, returning `ePAR_OK`.  `old` is the prior content of
the caller's out-buffer, untouched when the mutex is not acquired. -/
def par_get (env : ParEnv) (tbl : List ParCfg) (s : ParState) (num : Nat) (old : Int) :
    Nat × Int :=
  if env.mutexOk then (ePAR_OK, s.vals.getD num 0)
  else (ePAR_ERROR, old)

/-- `par_get_config` (par.c:566): checks only pointer validity (always valid
here) and the parameter bound; the init guard `gb_is_init` is never read. -/
def par_get_config (tbl : List ParCfg) (s : ParState) (num : Nat) :
    Nat × Option ParCfg :=
  if num < tbl.length then (ePAR_OK, some (tbl.getD num default))
  else (ePAR_ERROR, none)

/-- `par_get_num_by_id` (par.c:515): linear search for the first descriptor
with the given id; requires the init guard. -/
def par_get_num_by_id (tbl : List ParCfg) (s : ParState) (id : Nat) :
    Nat × Option Nat :=
  if s.isInit then
    match tbl.findIdx? (fun c => c.id = id) with
    | some i => (ePAR_OK, some i)
    | none => (ePAR_ERROR, none)
  else (ePAR_ERROR_INIT, none)

/-- `par_set_to_default` (par.c:327): copies the descriptor default through
`par_set`, OR-ing the sub-status into its own. -/
def par_set_to_default (env : ParEnv) (tbl : List ParCfg) (s : ParState) (num : Nat) :
    Nat × ParState :=
  if s.isInit then
    if num < tbl.length then
      let r := par_set env tbl s num (tbl.getD num default).defVal
      (Nat.lor ePAR_OK r.1, r.2)
    else (ePAR_ERROR, s)
  else (ePAR_ERROR_INIT, s)

/-- `par_set_all_to_default` (par.c:362): loops `par_set_to_default` over the
whole table, discarding every per-parameter status, and returns `ePAR_OK`
whenever the module is initialized. -/
def par_set_all_to_default (env : ParEnv) (tbl : List ParCfg) (s : ParState) :
    Nat × ParState :=
  if s.isInit then
    (ePAR_OK, (List.range tbl.length).foldl (fun acc n => (par_set_to_default env tbl acc n).2) s)
  else (ePAR_ERROR_INIT, s)

/-- Saturation to the `[lo, hi]` interval: the `clamp` of the specification. -/
def clamp (v lo hi : Int) : Int :=
  if v > hi then hi else if v < lo then lo else v

/-! ## NVM byte-level model

The external NVM driver exposes a byte-addressable region of a fixed size;
reads/writes/erases out of the region fail with a driver error, in-region
operations succeed (`par_nvm.c` treats the driver as a black box returning
`eNVM_OK` / `eNVM_ERROR`). -/

/-- The "Parameters" NVM region: a byte map of a fixed size. -/
structure Nvm where
  size : Nat
  bytes : Nat → Nat

/-- `nvm_read`: `none` models `eNVM_ERROR` (out-of-region access). -/
def nvm_read (m : Nvm) (addr len : Nat) : Option (List Nat) :=
  if addr + len ≤ m.size then
    some ((List.range len).map (fun i => m.bytes (addr + i) % 256))
  else none

/-- `nvm_write`: `none` models `eNVM_ERROR`. -/
def nvm_write (m : Nvm) (addr : Nat) (data : List Nat) : Option Nvm :=
  if addr + data.length ≤ m.size then
    some { m with bytes := fun a =>
      if addr ≤ a ∧ a < addr + data.length then data.getD (a - addr) 0 else m.bytes a }
  else none

/-- `nvm_erase`: erased NVM cells read back as `0xFF`. -/
def nvm_erase (m : Nvm) (addr len : Nat) : Option Nvm :=
  if addr + len ≤ m.size then
    some { m with bytes := fun a =>
      if addr ≤ a ∧ a < addr + len then 0xFF else m.bytes a }
  else none

/-- Little-endian byte serialization of `v` into `n` bytes (C struct layout
of the multi-byte fields, values truncated to the field width). -/
def leBytes : Nat → Nat → List Nat
  | 0, _ => []
  | n + 1, v => (v % 256) :: leBytes n (v / 256)

/-- Little-endian value of a byte list. -/
def leVal (bs : List Nat) : Nat :=
  bs.foldr (fun b acc => b % 256 + 256 * acc) 0

/-! ## On-media layout constants (par_nvm.c:82–123) -/

/-- `PAR_NVM_SIGN`: magic signature constant. -/
def PAR_NVM_SIGN : Nat := 0xFF00AA55

/-- `PAR_NVM_HEAD_ADDR`: header offset inside the region. -/
def PAR_NVM_HEAD_ADDR : Nat := 0

/-- `PAR_NVM_FIRST_DATA_OBJ_ADDR` = sign(4) + obj_nb(2) + crc(2) + hash(32). -/
def PAR_NVM_FIRST_DATA_OBJ_ADDR : Nat := 40

/-! ## CRC (par_nvm.c:953–994) -/

/-- One shift step of the MSB-first CRC-16 division (inner loop body of
`par_nvm_calc_crc`); the `% 65536` is the `uint16_t` assignment. -/
def crcShift (poly : Nat) (crc : Nat) : Nat :=
  if crc &&& 0x8000 ≠ 0 then ((crc <<< 1) ^^^ poly) % 65536
  else (crc <<< 1) % 65536

/-- Generic MSB-first CRC-16 over a byte stream with the given polynomial
and seed — the "CRC-16-CCITT, polynomial 0x1021, seed 0x1234" of the
specification is `crc16_msb 0x1021 0x1234`. -/
def crc16_msb (poly seed : Nat) (bs : List Nat) : Nat :=
  bs.foldl (fun crc b => (crcShift poly)^[8] ((crc ^^^ (b <<< 8)) % 65536)) seed

/-- `par_nvm_calc_crc` (par_nvm.c:953): CRC-16, polynomial `0x1021`
(CRC-16-CCITT), custom seed `0x1234`. -/
def par_nvm_calc_crc (bs : List Nat) : Nat :=
  bs.foldl (fun crc b => (crcShift 0x1021)^[8] ((crc ^^^ (b <<< 8)) % 65536)) 0x1234

/-! ## NVM data objects -/

/-- `par_nvm_data_obj_t`: id (u16), size (u8), crc (u8), 4-byte value slot. -/
structure DataObj where
  id : Nat
  size : Nat
  crc : Nat
  data : List Nat
deriving Repr, DecidableEq, Inhabited

/-- The 4 bytes of a data object's value slot (the C union occupies exactly
4 bytes; missing bytes read as 0, the fields are `uint8_t`-valued). -/
def slot4 (l : List Nat) : List Nat :=
  (List.range 4).map (fun i => l.getD i 0 % 256)

/-- `par_nvm_calc_obj_crc` (par_nvm.c:983): CRC-16 the 2 id bytes, the size
byte and the 4 value bytes separately, XOR the three 16-bit results, keep
the low byte.  (`% 256` on `size` renders the `uint8_t` field type.) -/
def par_nvm_calc_obj_crc (o : DataObj) : Nat :=
  (par_nvm_calc_crc (leBytes 2 o.id) ^^^ par_nvm_calc_crc [o.size % 256] ^^^
    par_nvm_calc_crc (slot4 o.data)) &&& 0xFF

/-- Serialized on-media form of a data object (C struct, little-endian). -/
def objBytes (o : DataObj) : List Nat :=
  leBytes 2 o.id ++ [o.size % 256, o.crc % 256] ++ slot4 o.data

/-- Parse 8 raw bytes into a data object (the `nvm_read` into
`par_nvm_data_obj_t`). -/
def readObj (bs : List Nat) : DataObj :=
  { id := bs.getD 0 0 + 256 * bs.getD 1 0
    size := bs.getD 2 0
    crc := bs.getD 3 0
    data := [bs.getD 4 0, bs.getD 5 0, bs.getD 6 0, bs.getD 7 0] }

/-! ## Signature and header primitives (par_nvm.c:676–942) -/

/-- `par_nvm_read_signature`: `ePAR_OK` iff the 4 signature bytes match. -/
def par_nvm_read_signature (m : Nvm) : Nat :=
  match nvm_read m PAR_NVM_HEAD_ADDR 4 with
  | none => ePAR_ERROR_NVM
  | some bs => if leVal bs = PAR_NVM_SIGN then ePAR_OK else ePAR_ERROR

/-- `par_nvm_write_signature`. -/
def par_nvm_write_signature (m : Nvm) : Nat × Nvm :=
  match nvm_write m PAR_NVM_HEAD_ADDR (leBytes 4 PAR_NVM_SIGN) with
  | some m2 => (ePAR_OK, m2)
  | none => (ePAR_ERROR_NVM, m)

/-- `par_nvm_corrupt_signature`: erases the 4 signature bytes. -/
def par_nvm_corrupt_signature (m : Nvm) : Nat × Nvm :=
  match nvm_erase m PAR_NVM_HEAD_ADDR 4 with
  | some m2 => (ePAR_OK, m2)
  | none => (ePAR_ERROR_NVM, m)

/-- On-media bytes of `par_nvm_head_obj_t` as written by
`par_nvm_write_header`: the zero-initialized `sign` field (4 bytes of 0),
`obj_nb`, and the CRC-16 over the raw `obj_nb` bytes. -/
def headObjBytes (nb : Nat) : List Nat :=
  leBytes 4 0 ++ leBytes 2 nb ++ leBytes 2 (par_nvm_calc_crc (leBytes 2 nb))

/-- `par_nvm_write_header` (par_nvm.c:884): writes the header struct (whose
`sign` field is still 0), then unconditionally writes the signature. -/
def par_nvm_write_header (m : Nvm) (nb : Nat) : Nat × Nvm :=
  let r1 :=
    match nvm_write m PAR_NVM_HEAD_ADDR (headObjBytes nb) with
    | some m2 => (ePAR_OK, m2)
    | none => (ePAR_ERROR_NVM, m)
  let r2 := par_nvm_write_signature r1.2
  (Nat.lor r1.1 r2.1, r2.2)

/-- `par_nvm_read_header` (par_nvm.c:840): reads the 8 header bytes and
validates the CRC over the `obj_nb` bytes; second component is the stored
object count (left 0 when invalid, like the caller's local). -/
def par_nvm_read_header (m : Nvm) : Nat × Nat :=
  match nvm_read m PAR_NVM_HEAD_ADDR 8 with
  | none => (ePAR_ERROR_NVM, 0)
  | some bs =>
    if par_nvm_calc_crc [bs.getD 4 0, bs.getD 5 0] = bs.getD 6 0 + 256 * bs.getD 7 0 then
      (ePAR_OK, bs.getD 4 0 + 256 * bs.getD 5 0)
    else (ePAR_ERROR_CRC, 0)

/-! ## NVM LUT (par_nvm.c:146–159, 1200–1272) -/

/-- `par_nvm_lut_t` entry: NVM address and parameter id. -/
structure LutEntry where
  addr : Nat
  id : Nat
deriving Repr, DecidableEq, Inhabited

/-- `par_nvm_get_nvm_lut_addr` (par_nvm.c:1257): first entry with the id, or
address 0 when no entry matches. -/
def par_nvm_get_nvm_lut_addr (lut : List LutEntry) (id : Nat) : Nat :=
  match lut.find? (fun e => e.id = id) with
  | some e => e.addr
  | none => 0

/-- `par_nvm_get_per_par` (par_nvm.c:1149): count of persistent descriptors
(the C loop reads each config by index). -/
def par_nvm_get_per_par (tbl : List ParCfg) : Nat :=
  (List.range tbl.length).countP (fun n => (tbl.getD n default).persistant)

/-- `par_nvm_build_new_nvm_lut` (par_nvm.c:1200): assigns consecutive
fixed-stride addresses (first object at 40, stride 8) to the persistent
descriptors in table order, overwriting the LUT prefix; entries beyond the
persistent count keep their old content. -/
def par_nvm_build_new_nvm_lut (tbl : List ParCfg) (lut : List LutEntry) : List LutEntry :=
  (tbl.foldl
    (fun (acc : Nat × List LutEntry) cfg =>
      if cfg.persistant then
        let addr :=
          if acc.1 = 0 then PAR_NVM_FIRST_DATA_OBJ_ADDR
          else (acc.2.getD (acc.1 - 1) default).addr + 8
        (acc.1 + 1, acc.2.set acc.1 ⟨addr, cfg.id % 65536⟩)
      else acc)
    (0, lut)).2

/-! ## Value slot encoding/decoding

`par_nvm_write` zero-initializes the 4-byte slot and lets `par_get` copy
the parameter's type-width bytes into it; `par_nvm_load_all` hands the slot
back to `par_set`, which reads the type-width bytes through the table
type's view (two's complement for the signed types). -/

/-- Storage width in bytes of a parameter type. -/
def typeWidthBytes : ParType → Nat
  | .u8 => 1 | .i8 => 1 | .u16 => 2 | .i16 => 2 | .u32 => 4 | .i32 => 4

/-- The C type's raw (unsigned) bit pattern of value `v`, `w` bits wide. -/
def toUnsigned (w : Nat) (v : Int) : Nat :=
  (v % ((2 : Int) ^ w)).toNat

/-- The 4-byte slot holding a live value of type `t` (type-width bytes
little-endian, remaining slot bytes left zero). -/
def valueSlot (t : ParType) (v : Int) : List Nat :=
  leBytes (typeWidthBytes t) (toUnsigned (8 * typeWidthBytes t) v) ++
    List.replicate (4 - typeWidthBytes t) 0

/-- Value read back from the slot through the view of type `t` (the typed
dereference in `par_set`'s kernels). -/
def decodeVal (t : ParType) (bs : List Nat) : Int :=
  let w := typeWidthBytes t
  let u := leVal (bs.take w)
  match t with
  | .u8 | .u16 | .u32 => (u : Int)
  | .i8 | .i16 | .i32 =>
    if 2 * u < 2 ^ (8 * w) then (u : Int) else (u : Int) - 2 ^ (8 * w)

/-! ## Storing parameters (par_nvm.c:406–546) -/

/-- The data object `par_nvm_write` assembles for parameter `num`: current
live value (via `par_get` into the zeroed slot), the descriptor id
truncated to the u16 field, fixed size 4, and the object CRC. -/
def par_nvm_mk_obj (env : ParEnv) (tbl : List ParCfg) (s : ParState) (num : Nat) : DataObj :=
  let cfg := tbl.getD num default
  let v := (par_get env tbl s num 0).2
  let o : DataObj := { id := cfg.id % 65536, size := 4, crc := 0, data := valueSlot cfg.type v }
  { o with crc := par_nvm_calc_obj_crc o }

/-- `par_nvm_write` (par_nvm.c:406): persistence-gated write of one
parameter's data object at the address the LUT gives for its id. -/
def par_nvm_write (env : ParEnv) (tbl : List ParCfg) (lut : List LutEntry)
    (s : ParState) (m : Nvm) (num : Nat) : Nat × Nvm :=
  if num < tbl.length then
    let cfg := tbl.getD num default
    if cfg.persistant then
      let o := par_nvm_mk_obj env tbl s num
      let addr := par_nvm_get_nvm_lut_addr lut o.id
      match nvm_write m addr (objBytes o) with
      | some m2 => (ePAR_OK, m2)
      | none => (ePAR_ERROR_NVM, m)
    else (ePAR_ERROR, m)
  else (ePAR_ERROR, m)

/-- `par_nvm_write_all` (par_nvm.c:519): corrupt the signature, write every
persistent parameter's object, then rewrite the header (which ends by
writing a fresh signature). -/
def par_nvm_write_all (env : ParEnv) (tbl : List ParCfg) (lut : List LutEntry)
    (s : ParState) (m : Nvm) : Nat × Nvm :=
  let r0 := par_nvm_corrupt_signature m
  let r1 := (List.range tbl.length).foldl
    (fun (acc : Nat × Nat × Nvm) num =>
      if (tbl.getD num default).persistant then
        let w := par_nvm_write env tbl lut s acc.2.2 num
        (Nat.lor acc.1 w.1, acc.2.1 + 1, w.2)
      else acc)
    (r0.1, 0, r0.2)
  let r2 := par_nvm_write_header r1.2.2 r1.2.1
  (Nat.lor r1.1 r2.1, r2.2)

/-- `par_nvm_reset_all` (par_nvm.c:1180): rebuild the LUT from the table,
then rewrite the whole region via `par_nvm_write_all`. -/
def par_nvm_reset_all (env : ParEnv) (tbl : List ParCfg) (lut : List LutEntry)
    (s : ParState) (m : Nvm) : Nat × List LutEntry × Nvm :=
  let lut2 := par_nvm_build_new_nvm_lut tbl lut
  let r := par_nvm_write_all env tbl lut2 s m
  (r.1, lut2, r.2)

/-- `par_nvm_validate_header` (par_nvm.c:911): NVM read errors pass through;
a valid header with a positive count yields `ePAR_OK` and the count; a CRC
failure or a zero count escalates to `par_nvm_reset_all` (whose status is
returned, the count output staying 0). -/
def par_nvm_validate_header (env : ParEnv) (tbl : List ParCfg) (lut : List LutEntry)
    (s : ParState) (m : Nvm) : Nat × Nat × List LutEntry × Nvm :=
  let rh := par_nvm_read_header m
  if rh.1 = ePAR_ERROR_NVM then (rh.1, 0, lut, m)
  else if rh.1 = ePAR_OK ∧ 0 < rh.2 then (ePAR_OK, rh.2, lut, m)
  else
    let r := par_nvm_reset_all env tbl lut s m
    (r.1, 0, r.2.1, r.2.2)

/-! ## Loading parameters (par_nvm.c:1004–1140)

The C loop reuses its loop counter `par_num` as the output argument of
`par_get_num_by_id`, so after an object matching table position `p` the
counter continues from `p + 1` — the model reproduces this exactly.  The
loop terminates because every iteration advances `obj_addr` by 8 and a
read past the region end fails; `fuel` (instantiated with `m.size + 2` by
`par_nvm_load_all`, strictly more than the possible number of in-region
reads) makes that termination explicit. -/

/-- Body of the `par_nvm_load_all` for-loop.  Arguments beyond the fuel:
loop counter `par_num`, current object address, the last `nvm_read` result
(`none` = driver error), live state and LUT. -/
def par_nvm_load_loop (env : ParEnv) (tbl : List ParCfg) (m : Nvm) (nb : Nat) :
    Nat → Nat → Nat → Option DataObj → ParState → List LutEntry →
    Nat × ParState × List LutEntry
  | 0, _, _, _, s, lut => (ePAR_ERROR_NVM, s, lut)
  | fuel + 1, par_num, obj_addr, robj, s, lut =>
    if par_num < nb then
      match robj with
      | none => (ePAR_ERROR_NVM, s, lut)
      | some o =>
        if par_nvm_calc_obj_crc o = o.crc then
          let r := par_get_num_by_id tbl s o.id
          let next :=
            match r.2 with
            | some found =>
              (found,
               (par_set env tbl s found (decodeVal (tbl.getD found default).type o.data)).2,
               lut.set found ⟨obj_addr, o.id⟩)
            | none => (par_num, s, lut)
          let addr2 := obj_addr + 8
          match nvm_read m addr2 8 with
          | none => (ePAR_ERROR_NVM, next.2.1, next.2.2)
          | some bs =>
            par_nvm_load_loop env tbl m nb fuel (next.1 + 1) addr2 (some (readObj bs))
              next.2.1 next.2.2
        else (ePAR_ERROR_CRC, s, lut)
    else (ePAR_OK, s, lut)

/-- `par_nvm_load_all` (par_nvm.c:1004): read the first stored object, then
run the loop over the `nb` stored objects. -/
def par_nvm_load_all (env : ParEnv) (tbl : List ParCfg) (s : ParState)
    (lut : List LutEntry) (m : Nvm) (nb : Nat) : Nat × ParState × List LutEntry :=
  let robj := (nvm_read m PAR_NVM_FIRST_DATA_OBJ_ADDR 8).map readObj
  par_nvm_load_loop env tbl m nb (m.size + 2) 0 PAR_NVM_FIRST_DATA_OBJ_ADDR robj s lut

/-- `par_nvm_init` (par_nvm.c:204, active code): with no persistent
parameters do nothing; otherwise check the signature (corrupt signature →
full reset), validate the header, load all objects, and on a load CRC
error escalate to `par_nvm_reset_all`; on a load NVM error set all live
parameters back to defaults (discarding that call's status). -/
def par_nvm_init (env : ParEnv) (tbl : List ParCfg) (s : ParState)
    (lut : List LutEntry) (m : Nvm) : Nat × ParState × List LutEntry × Nvm :=
  if 0 < par_nvm_get_per_par tbl then
    let st := par_nvm_read_signature m
    if st = ePAR_OK then
      let v := par_nvm_validate_header env tbl lut s m
      if v.1 = ePAR_OK then
        let l := par_nvm_load_all env tbl s v.2.2.1 v.2.2.2 v.2.1
        if l.1 = ePAR_ERROR_CRC then
          let r := par_nvm_reset_all env tbl l.2.2 l.2.1 v.2.2.2
          (r.1, l.2.1, r.2.1, r.2.2)
        else if l.1 = ePAR_ERROR_NVM then
          (l.1, (par_set_all_to_default env tbl l.2.1).2, l.2.2, v.2.2.2)
        else (l.1, l.2.1, l.2.2, v.2.2.2)
      else (v.1, s, v.2.2.1, v.2.2.2)
    else if st = ePAR_ERROR then
      let r := par_nvm_reset_all env tbl lut s m
      (r.1, s, r.2.1, r.2.2)
    else (st, s, lut, m)
  else (ePAR_OK, s, lut, m)

/-! ## The NVM-state trace of `par_nvm_write_all`

For the crash-consistency claim the sequence of on-media states matters,
not only the final one: the trace below records the region state after the
signature corruption, after each data-object write, after the header-struct
write and after the final signature write, mirroring `par_nvm_write_all`
operation by operation. -/

/-- Region states after each persistent data-object write, in table order. -/
def par_nvm_write_data_states (env : ParEnv) (tbl : List ParCfg) (lut : List LutEntry)
    (s : ParState) : Nvm → List Nat → List Nvm
  | _, [] => []
  | m, num :: rest =>
    if (tbl.getD num default).persistant then
      let m2 := (par_nvm_write env tbl lut s m num).2
      m2 :: par_nvm_write_data_states env tbl lut s m2 rest
    else par_nvm_write_data_states env tbl lut s m rest

/-- The full sequence of on-media states produced by `par_nvm_write_all`. -/
def par_nvm_write_all_trace (env : ParEnv) (tbl : List ParCfg) (lut : List LutEntry)
    (s : ParState) (m : Nvm) : List Nvm :=
  let m1 := (par_nvm_corrupt_signature m).2
  let ds := par_nvm_write_data_states env tbl lut s m1 (List.range tbl.length)
  let m2 := (m1 :: ds).getLastD m1
  let mh :=
    match nvm_write m2 PAR_NVM_HEAD_ADDR (headObjBytes (par_nvm_get_per_par tbl)) with
    | some x => x
    | none => m2
  let msig := (par_nvm_write_signature mh).2
  (m1 :: ds) ++ [mh, msig]

/-! ## Helper lemmas -/

theorem getD_set_self (l : List Int) (n : Nat) (a : Int) (h : n < l.length) :
    (l.set n a).getD n 0 = a := by
  simp [List.getD_eq_getElem?_getD, List.getElem?_set_self', h]

theorem le_clamp (v lo hi : Int) (h : lo ≤ hi) : lo ≤ clamp v lo hi := by
  unfold clamp; split_ifs <;> omega

theorem clamp_le (v lo hi : Int) (h : lo ≤ hi) : clamp v lo hi ≤ hi := by
  unfold clamp; split_ifs <;> omega

theorem clamp_of_lt (v lo hi : Int) (h : lo ≤ hi) (hv : v < lo) : clamp v lo hi = lo := by
  unfold clamp; split_ifs <;> omega

theorem clamp_of_gt (v lo hi : Int) (h : lo ≤ hi) (hv : hi < v) : clamp v lo hi = hi := by
  unfold clamp; split_ifs <;> omega

/-- In the initialized state, with a valid number and the mutex acquired,
`par_set` returns `ePAR_OK` and stores the clamped value — whatever the
parameter's type and access rights (all six kernels saturate identically,
and the source has no access check). -/
theorem par_set_vals_eq (env : ParEnv) (tbl : List ParCfg) (s : ParState)
    (num : Nat) (v : Int)
    (hi : s.isInit = true) (hm : env.mutexOk = true) (hn : num < tbl.length) :
    par_set env tbl s num v =
      (ePAR_OK,
       { s with vals :=
          s.vals.set num (clamp v (tbl.getD num default).min (tbl.getD num default).max) }) := by
  unfold par_set par_set_u8 par_set_i8 par_set_u16 par_set_i16 par_set_u32 par_set_i32 clamp
  simp only [hi, hm, hn, if_true, ite_true]
  cases (tbl.getD num default).type <;> (dsimp only; split_ifs <;> rfl)

theorem objBytes_length (o : DataObj) : (objBytes o).length = 8 := by
  simp [objBytes, leBytes, slot4]

/-! ## Concrete fixtures for witnesses and counterexamples -/

/-- Two read-write persistent `u8` parameters (ids 1 and 2, range 0–100,
defaults 3 and 7). -/
def tblW : List ParCfg :=
  [ { id := 1, min := 0, max := 100, defVal := 3, type := .u8, access := .rw,
      persistant := true },
    { id := 2, min := 0, max := 100, defVal := 7, type := .u8, access := .rw,
      persistant := true } ]

/-- One read-only, non-persistent `u8` parameter. -/
def tblRO : List ParCfg :=
  [ { id := 1, min := 0, max := 100, defVal := 3, type := .u8, access := .ro,
      persistant := false } ]

/-- Environment whose mutex acquisition succeeds. -/
def envW : ParEnv := ⟨true⟩

/-- Initialized state holding the defaults of `tblW`. -/
def sW : ParState := ⟨true, [3, 7]⟩

/-- Zero-initialized NVM LUT (the power-on content of
`g_par_nvm_data_obj_addr`). -/
def lutW0 : List LutEntry := [⟨0, 0⟩, ⟨0, 0⟩]

/-! ## Claims about the live value store -/

/-- **C1** For every valid parameter number and every input value, after
`par_set(par_num, v)` succeeds a subsequent `par_get(par_num)` returns
`clamp(v, min, max)` of the descriptor range; setting `min - 1` stores
exactly `min`, setting `max + 1` stores exactly `max`, and the stored live
value is never outside `[min, max]`. -/
theorem par_set_then_get_clamps (env : ParEnv) (tbl : List ParCfg) (s : ParState)
    (num : Nat) (v : Int)
    (hi : s.isInit = true) (hm : env.mutexOk = true) (hn : num < tbl.length)
    (hlen : s.vals.length = tbl.length)
    (hmm : (tbl.getD num default).min ≤ (tbl.getD num default).max) :
    (par_set env tbl s num v).1 = ePAR_OK ∧
    (par_get env tbl (par_set env tbl s num v).2 num 0).2 =
      clamp v (tbl.getD num default).min (tbl.getD num default).max ∧
    (tbl.getD num default).min ≤ (par_get env tbl (par_set env tbl s num v).2 num 0).2 ∧
    (par_get env tbl (par_set env tbl s num v).2 num 0).2 ≤ (tbl.getD num default).max ∧
    (v = (tbl.getD num default).min - 1 →
      (par_get env tbl (par_set env tbl s num v).2 num 0).2 = (tbl.getD num default).min) ∧
    (v = (tbl.getD num default).max + 1 →
      (par_get env tbl (par_set env tbl s num v).2 num 0).2 = (tbl.getD num default).max) := by
  have h := par_set_vals_eq env tbl s num v hi hm hn
  have hget : (par_get env tbl (par_set env tbl s num v).2 num 0).2 =
      clamp v (tbl.getD num default).min (tbl.getD num default).max := by
    rw [h]
    simp only [par_get, hm, if_true]
    exact getD_set_self _ _ _ (by rw [hlen]; exact hn)
  refine ⟨by rw [h], hget, ?_, ?_, ?_, ?_⟩
  · rw [hget]; exact le_clamp _ _ _ hmm
  · rw [hget]; exact clamp_le _ _ _ hmm
  · intro hv; rw [hget]; exact clamp_of_lt _ _ _ hmm (by omega)
  · intro hv; rw [hget]; exact clamp_of_gt _ _ _ hmm (by omega)

/-- Witness for C1 at `tblW`, parameter 0, input 101 (= max + 1). -/
theorem par_set_then_get_clamps_witness :
    (par_set envW tblW sW 0 101).1 = ePAR_OK ∧
    (par_get envW tblW (par_set envW tblW sW 0 101).2 0 0).2 =
      clamp 101 (tblW.getD 0 default).min (tblW.getD 0 default).max ∧
    (tblW.getD 0 default).min ≤ (par_get envW tblW (par_set envW tblW sW 0 101).2 0 0).2 ∧
    (par_get envW tblW (par_set envW tblW sW 0 101).2 0 0).2 ≤ (tblW.getD 0 default).max ∧
    ((101 : Int) = (tblW.getD 0 default).min - 1 →
      (par_get envW tblW (par_set envW tblW sW 0 101).2 0 0).2 = (tblW.getD 0 default).min) ∧
    ((101 : Int) = (tblW.getD 0 default).max + 1 →
      (par_get envW tblW (par_set envW tblW sW 0 101).2 0 0).2 = (tblW.getD 0 default).max) :=
  par_set_then_get_clamps envW tblW sW 0 101 rfl rfl (by decide) (by decide) (by decide)

/-- **C5 counterexample** The claim says `par_set` on a read-only parameter
fails and leaves the live value unchanged.  On the concrete read-only
parameter of `tblRO`, in the initialized state with a valid number,
`par_set` returns `ePAR_OK` and changes the live value from 3 to 5: the
source of `par_set` (par.c:235) contains no access-rights check. -/
theorem par_set_readonly_counterexample :
    (tblRO.getD 0 default).access = ParAccess.ro ∧
    (par_set ⟨true⟩ tblRO ⟨true, [3]⟩ 0 5).1 = ePAR_OK ∧
    (par_set ⟨true⟩ tblRO ⟨true, [3]⟩ 0 5).2.vals = [5] := by decide

/-- **C5 (amended)** `par_set` requires only the initialized state, a valid
parameter number and the mutex; the descriptor's access rights are not
checked, so even a read-only parameter is stored (clamped) with status
`ePAR_OK`. -/
theorem par_set_ignores_access (env : ParEnv) (tbl : List ParCfg) (s : ParState)
    (num : Nat) (v : Int)
    (hi : s.isInit = true) (hm : env.mutexOk = true) (hn : num < tbl.length)
    (hro : (tbl.getD num default).access = ParAccess.ro) :
    (par_set env tbl s num v).1 = ePAR_OK ∧
    (par_set env tbl s num v).2.vals =
      s.vals.set num (clamp v (tbl.getD num default).min (tbl.getD num default).max) := by
  rw [par_set_vals_eq env tbl s num v hi hm hn]
  exact ⟨rfl, rfl⟩

/-- Witness for the amended C5 on the read-only parameter of `tblRO`. -/
theorem par_set_ignores_access_witness :
    (par_set ⟨true⟩ tblRO ⟨true, [3]⟩ 0 200).1 = ePAR_OK ∧
    (par_set ⟨true⟩ tblRO ⟨true, [3]⟩ 0 200).2.vals =
      (ParState.vals ⟨true, [3]⟩).set 0
        (clamp 200 (tblRO.getD 0 default).min (tblRO.getD 0 default).max) :=
  par_set_ignores_access ⟨true⟩ tblRO ⟨true, [3]⟩ 0 200 rfl rfl (by decide) (by decide)

/-- **C6 counterexample** The claim says every public accessor invoked
outside the Initialized state returns an init-error status; but `par_get`
(par.c:405) checks `gb_is_init` only via `PAR_ASSERT` (no runtime branch)
and returns `ePAR_OK` in the uninitialized state, and `par_get_config`
(par.c:566) never reads `gb_is_init` at all — `par_init` itself relies on
`par_get_config` working before the init flag is set. -/
theorem par_get_uninit_counterexample :
    (ParState.isInit ⟨false, [3]⟩) = false ∧
    (par_get ⟨true⟩ tblRO ⟨false, [3]⟩ 0 0).1 = ePAR_OK ∧
    (par_get ⟨true⟩ tblRO ⟨false, [3]⟩ 0 0).1 ≠ ePAR_ERROR_INIT ∧
    (par_get_config tblRO ⟨false, [3]⟩ 0).1 = ePAR_OK ∧
    (par_get_config tblRO ⟨false, [3]⟩ 0).1 ≠ ePAR_ERROR_INIT := by decide

/-- **C6 (amended)** In the uninitialized state the mutating accessors
(`par_set`, `par_set_to_default`, `par_set_all_to_default`) and
`par_get_num_by_id` return `ePAR_ERROR_INIT` and leave the state unchanged,
but `par_get` and `par_get_config` enforce the precondition only through
assertions: at runtime `par_get` returns `ePAR_OK` (mutex permitting) and
`par_get_config` succeeds for any valid parameter number regardless of the
init state. -/
theorem par_accessors_init_guard (env : ParEnv) (tbl : List ParCfg) (s : ParState)
    (num : Nat) (v : Int)
    (hu : s.isInit = false) (hm : env.mutexOk = true) (hn : num < tbl.length) :
    (par_set env tbl s num v).1 = ePAR_ERROR_INIT ∧
    (par_set env tbl s num v).2 = s ∧
    (par_set_to_default env tbl s num).1 = ePAR_ERROR_INIT ∧
    (par_set_all_to_default env tbl s).1 = ePAR_ERROR_INIT ∧
    (par_get_num_by_id tbl s (tbl.getD num default).id).1 = ePAR_ERROR_INIT ∧
    (par_get env tbl s num v).1 = ePAR_OK ∧
    (par_get_config tbl s num).1 = ePAR_OK := by
  refine ⟨?_, ?_, ?_, ?_, ?_, ?_, ?_⟩ <;>
    simp [par_set, par_set_to_default, par_set_all_to_default, par_get_num_by_id,
      par_get, par_get_config, hu, hm, hn]

/-- Witness for the amended C6 on `tblW` in the uninitialized state. -/
theorem par_accessors_init_guard_witness :
    (par_set envW tblW ⟨false, [3, 7]⟩ 0 5).1 = ePAR_ERROR_INIT ∧
    (par_set envW tblW ⟨false, [3, 7]⟩ 0 5).2 = ⟨false, [3, 7]⟩ ∧
    (par_set_to_default envW tblW ⟨false, [3, 7]⟩ 0).1 = ePAR_ERROR_INIT ∧
    (par_set_all_to_default envW tblW ⟨false, [3, 7]⟩).1 = ePAR_ERROR_INIT ∧
    (par_get_num_by_id tblW ⟨false, [3, 7]⟩ (tblW.getD 0 default).id).1 = ePAR_ERROR_INIT ∧
    (par_get envW tblW ⟨false, [3, 7]⟩ 0 5).1 = ePAR_OK ∧
    (par_get_config tblW ⟨false, [3, 7]⟩ 0).1 = ePAR_OK :=
  par_accessors_init_guard envW tblW ⟨false, [3, 7]⟩ 0 5 rfl rfl (by decide)

/-- **C8** When `par_set` clamps an out-of-range input in the initialized
state, the returned status is exactly `ePAR_OK`; the legacy warning codes
`ePAR_WAR_LIM_TO_MAX` / `ePAR_WAR_LIM_TO_MIN` (declared in the V1.0.0
header, src/par.h:35–42) are never returned — a caller cannot distinguish
a clamped store from an exact one. -/
theorem par_set_clamped_status_ok (env : ParEnv) (tbl : List ParCfg) (s : ParState)
    (num : Nat) (v : Int)
    (hi : s.isInit = true) (hm : env.mutexOk = true) (hn : num < tbl.length)
    (hout : (tbl.getD num default).max < v ∨ v < (tbl.getD num default).min) :
    (par_set env tbl s num v).1 = ePAR_OK ∧
    (par_set env tbl s num v).1 ≠ ePAR_WAR_LIM_TO_MAX ∧
    (par_set env tbl s num v).1 ≠ ePAR_WAR_LIM_TO_MIN := by
  have h := par_set_vals_eq env tbl s num v hi hm hn
  refine ⟨by rw [h], ?_, ?_⟩ <;>
    (rw [h]; simp [ePAR_OK, ePAR_WAR_LIM_TO_MAX, ePAR_WAR_LIM_TO_MIN])

/-- Witness for C8: storing 101 into the 0–100 parameter of `tblW`. -/
theorem par_set_clamped_status_ok_witness :
    (par_set envW tblW sW 0 101).1 = ePAR_OK ∧
    (par_set envW tblW sW 0 101).1 ≠ ePAR_WAR_LIM_TO_MAX ∧
    (par_set envW tblW sW 0 101).1 ≠ ePAR_WAR_LIM_TO_MIN :=
  par_set_clamped_status_ok envW tblW sW 0 101 rfl rfl (by decide) (by decide)

/-- **C10** `par_set_all_to_default` returns `ePAR_OK` whenever the module
is initialized, discarding the statuses of the per-parameter
`par_set_to_default` calls — even in an environment (mutex acquisition
failing) where every individual call returns a non-OK status. -/
theorem par_set_all_to_default_discards_status (env : ParEnv) (tbl : List ParCfg)
    (s : ParState) (hi : s.isInit = true) :
    (par_set_all_to_default env tbl s).1 = ePAR_OK ∧
    (env.mutexOk = false → ∀ num, num < tbl.length →
      (par_set_to_default env tbl s num).1 ≠ ePAR_OK) := by
  constructor
  · simp [par_set_all_to_default, hi]
  · intro hmx num hnum
    simp [par_set_to_default, par_set, hi, hnum, hmx]
    decide

/-- Witness for C10: `tblW` with the mutex failing — each individual
`par_set_to_default` fails, yet `par_set_all_to_default` reports `ePAR_OK`. -/
theorem par_set_all_to_default_discards_status_witness :
    (par_set_all_to_default ⟨false⟩ tblW sW).1 = ePAR_OK ∧
    ((ParEnv.mutexOk ⟨false⟩) = false → ∀ num, num < tblW.length →
      (par_set_to_default ⟨false⟩ tblW sW num).1 ≠ ePAR_OK) :=
  par_set_all_to_default_discards_status ⟨false⟩ tblW sW rfl

/-! ## Claims about the NVM layer -/

/-- **C7** For every data object, `par_nvm_calc_obj_crc` equals the low 8
bits of `CRC16(id as 2 bytes) XOR CRC16(size as 1 byte) XOR CRC16(value as
4 bytes)`, where `CRC16` is the MSB-first CRC-16 with polynomial `0x1021`
(CRC-16-CCITT) and seed `0x1234`, exactly the algorithm of
`par_nvm_calc_crc`. -/
theorem par_nvm_obj_crc_formula (o : DataObj) :
    par_nvm_calc_obj_crc o =
      (crc16_msb 0x1021 0x1234 (leBytes 2 o.id) ^^^
       crc16_msb 0x1021 0x1234 [o.size % 256] ^^^
       crc16_msb 0x1021 0x1234 (slot4 o.data)) % 256 ∧
    par_nvm_calc_crc = crc16_msb 0x1021 0x1234 := by
  constructor
  · unfold par_nvm_calc_obj_crc
    rw [show ∀ bs : List Nat, par_nvm_calc_crc bs = crc16_msb 0x1021 0x1234 bs from fun _ => rfl]
    exact Nat.and_pow_two_sub_one_eq_mod _ 8
  · rfl

/-- **C9** For any id with no entry in the NVM LUT,
`par_nvm_get_nvm_lut_addr` returns address 0; consequently `par_nvm_write`
for a persistent parameter whose id was never registered succeeds
(`ePAR_OK`) and writes its data object at region offset 0 — the
header/signature location — instead of failing. -/
theorem par_nvm_write_unregistered_id (env : ParEnv) (tbl : List ParCfg)
    (lut : List LutEntry) (s : ParState) (m : Nvm) (num : Nat)
    (hn : num < tbl.length) (hp : (tbl.getD num default).persistant = true)
    (hid : ∀ e ∈ lut, e.id ≠ (tbl.getD num default).id % 65536)
    (hsz : 8 ≤ m.size) :
    par_nvm_get_nvm_lut_addr lut ((tbl.getD num default).id % 65536) = 0 ∧
    (par_nvm_write env tbl lut s m num).1 = ePAR_OK ∧
    nvm_write m 0 (objBytes (par_nvm_mk_obj env tbl s num)) =
      some (par_nvm_write env tbl lut s m num).2 := by
  have hfind : lut.find? (fun e => e.id = (tbl.getD num default).id % 65536) = none := by
    rw [List.find?_eq_none]
    intro e he
    simpa using hid e he
  have haddr : par_nvm_get_nvm_lut_addr lut ((tbl.getD num default).id % 65536) = 0 := by
    unfold par_nvm_get_nvm_lut_addr
    rw [hfind]
  have hw : nvm_write m 0 (objBytes (par_nvm_mk_obj env tbl s num)) =
      some { m with bytes := fun a =>
        if 0 ≤ a ∧ a < 0 + (objBytes (par_nvm_mk_obj env tbl s num)).length
        then (objBytes (par_nvm_mk_obj env tbl s num)).getD (a - 0) 0 else m.bytes a } := by
    unfold nvm_write
    rw [if_pos]
    rw [objBytes_length]
    omega
  have hpw : par_nvm_write env tbl lut s m num =
      (ePAR_OK, { m with bytes := fun a =>
        if 0 ≤ a ∧ a < 0 + (objBytes (par_nvm_mk_obj env tbl s num)).length
        then (objBytes (par_nvm_mk_obj env tbl s num)).getD (a - 0) 0 else m.bytes a }) := by
    unfold par_nvm_write
    simp only [hn, if_true, hp, ite_true]
    rw [show par_nvm_get_nvm_lut_addr lut (par_nvm_mk_obj env tbl s num).id = 0 from haddr]
    rw [hw]
  exact ⟨haddr, by rw [hpw], by rw [hpw, hw]⟩

/-- Witness for C9: `tblW` parameter 1 (id 2) against a zeroed LUT whose
entries all carry id 0. -/
theorem par_nvm_write_unregistered_id_witness :
    par_nvm_get_nvm_lut_addr [LutEntry.mk 40 1] ((tblW.getD 1 default).id % 65536) = 0 ∧
    (par_nvm_write envW tblW [LutEntry.mk 40 1] sW ⟨64, fun _ => 0xFF⟩ 1).1 = ePAR_OK ∧
    nvm_write ⟨64, fun _ => 0xFF⟩ 0 (objBytes (par_nvm_mk_obj envW tblW sW 1)) =
      some (par_nvm_write envW tblW [LutEntry.mk 40 1] sW ⟨64, fun _ => 0xFF⟩ 1).2 :=
  par_nvm_write_unregistered_id envW tblW [LutEntry.mk 40 1] sW ⟨64, fun _ => 0xFF⟩ 1
    (by decide) (by decide) (by decide) (by norm_num)

/-! ## Crash-consistency of `par_nvm_write_all` (claim C2) -/

theorem nvm_write_size (m : Nvm) (addr : Nat) (d : List Nat) (m2 : Nvm)
    (h : nvm_write m addr d = some m2) : m2.size = m.size := by
  unfold nvm_write at h
  split at h
  · cases h; rfl
  · cases h

theorem nvm_write_bytes_low (m : Nvm) (addr : Nat) (d : List Nat) (m2 : Nvm)
    (h : nvm_write m addr d = some m2) (a : Nat) (ha : a < addr) :
    m2.bytes a = m.bytes a := by
  unfold nvm_write at h
  split at h
  · cases h; simp; omega
  · cases h

/-- `par_nvm_mk_obj` stores the descriptor id truncated to the u16 field. -/
theorem par_nvm_mk_obj_id (env : ParEnv) (tbl : List ParCfg) (s : ParState) (num : Nat) :
    (par_nvm_mk_obj env tbl s num).id = (tbl.getD num default).id % 65536 := rfl

/-- A single `par_nvm_write` whose LUT address lies at or above 4 never
touches the signature bytes (offsets 0–3) and preserves the region size. -/
theorem par_nvm_write_sig_preserved (env : ParEnv) (tbl : List ParCfg)
    (lut : List LutEntry) (s : ParState) (m : Nvm) (num : Nat)
    (haddr : (tbl.getD num default).persistant = true →
      4 ≤ par_nvm_get_nvm_lut_addr lut ((tbl.getD num default).id % 65536)) :
    (∀ a < 4, (par_nvm_write env tbl lut s m num).2.bytes a = m.bytes a) ∧
    (par_nvm_write env tbl lut s m num).2.size = m.size := by
  by_cases hn : num < tbl.length
  · by_cases hp : (tbl.getD num default).persistant
    · simp only [par_nvm_write, hn, if_true, hp, ite_true, par_nvm_mk_obj_id]
      rcases hw : nvm_write m (par_nvm_get_nvm_lut_addr lut ((tbl.getD num default).id % 65536))
          (objBytes (par_nvm_mk_obj env tbl s num)) with _ | m2 <;>
        simp only [hw]
      · exact ⟨fun a _ => trivial, trivial⟩
      · refine ⟨fun a ha => ?_, nvm_write_size _ _ _ _ hw⟩
        exact nvm_write_bytes_low _ _ _ _ hw a (by have := haddr hp; omega)
    · simp only [par_nvm_write, hn, if_true]
      rw [if_neg hp]
      exact ⟨fun a _ => rfl, rfl⟩
  · simp only [par_nvm_write, hn, if_false]
    exact ⟨fun a _ => trivial, trivial⟩

/-- Every intermediate region state of the data-object write pass keeps the
signature bytes (and the size) of the state it started from, provided every
persistent parameter's LUT address lies at or above 4. -/
theorem write_data_states_sig_preserved (env : ParEnv) (tbl : List ParCfg)
    (lut : List LutEntry) (s : ParState)
    (hlut : ∀ num < tbl.length, (tbl.getD num default).persistant = true →
      4 ≤ par_nvm_get_nvm_lut_addr lut ((tbl.getD num default).id % 65536)) :
    ∀ (idxs : List Nat) (m0 : Nvm), (∀ i ∈ idxs, i < tbl.length) →
      ∀ mi ∈ par_nvm_write_data_states env tbl lut s m0 idxs,
        (∀ a < 4, mi.bytes a = m0.bytes a) ∧ mi.size = m0.size := by
  intro idxs
  induction idxs with
  | nil => intro m0 _ mi hmi; simp [par_nvm_write_data_states] at hmi
  | cons i rest ih =>
    intro m0 hidx mi hmi
    rw [par_nvm_write_data_states] at hmi
    by_cases hp : (tbl.getD i default).persistant
    · rw [if_pos hp] at hmi
      have hstep := par_nvm_write_sig_preserved env tbl lut s m0 i
        (fun _ => hlut i (hidx i (by simp)) hp)
      rcases List.mem_cons.mp hmi with h1 | h2
      · subst h1; exact hstep
      · have := ih ((par_nvm_write env tbl lut s m0 i).2)
          (fun j hj => hidx j (by simp [hj])) mi h2
        exact ⟨fun a ha => (this.1 a ha).trans (hstep.1 a ha),
          this.2.trans hstep.2⟩
    · rw [if_neg hp] at hmi
      exact ih m0 (fun j hj => hidx j (by simp [hj])) mi hmi

theorem getLastD_mem_cons (l : List Nvm) (a : Nvm) : l.getLastD a ∈ a :: l := by
  induction l generalizing a with
  | nil => exact List.mem_cons_self a []
  | cons b t ih =>
    rw [List.getLastD_cons]
    exact List.mem_cons_of_mem a (ih b)

/-- The data-object pass of `par_nvm_write_all` (a fold) ends in the last
state of `par_nvm_write_data_states` and counts exactly the persistent
descriptors. -/
theorem write_all_foldl_eq (env : ParEnv) (tbl : List ParCfg) (lut : List LutEntry)
    (s : ParState) :
    ∀ (idxs : List Nat) (st per : Nat) (m0 : Nvm),
      (idxs.foldl (fun (acc : Nat × Nat × Nvm) num =>
          if (tbl.getD num default).persistant then
            let w := par_nvm_write env tbl lut s acc.2.2 num
            (Nat.lor acc.1 w.1, acc.2.1 + 1, w.2)
          else acc) (st, per, m0)).2.2 =
        (m0 :: par_nvm_write_data_states env tbl lut s m0 idxs).getLastD m0 ∧
      (idxs.foldl (fun (acc : Nat × Nat × Nvm) num =>
          if (tbl.getD num default).persistant then
            let w := par_nvm_write env tbl lut s acc.2.2 num
            (Nat.lor acc.1 w.1, acc.2.1 + 1, w.2)
          else acc) (st, per, m0)).2.1 =
        per + idxs.countP (fun num => (tbl.getD num default).persistant) := by
  intro idxs
  induction idxs with
  | nil => intro st per m0; simp [par_nvm_write_data_states]
  | cons i rest ih =>
    intro st per m0
    by_cases hp : (tbl.getD i default).persistant = true
    · simp only [List.foldl_cons, par_nvm_write_data_states, hp, if_true, ite_true]
      refine ⟨?_, ?_⟩
      · rw [(ih _ _ _).1, List.getLastD_cons, List.getLastD_cons, List.getLastD_cons]
      · rw [(ih _ _ _).2, List.countP_cons, if_pos hp]
        omega
    · have hp2 : (tbl.getD i default).persistant = false := by simpa using hp
      simp only [List.foldl_cons, par_nvm_write_data_states, hp2, Bool.false_eq_true,
        if_false, ite_false]
      refine ⟨(ih _ _ _).1, ?_⟩
      rw [(ih _ _ _).2, List.countP_cons, if_neg hp]
      omega

/-- After `par_nvm_corrupt_signature` the four signature bytes read `0xFF`. -/
theorem corrupt_signature_bytes (m : Nvm) (h : 4 ≤ m.size) :
    (par_nvm_corrupt_signature m).2.size = m.size ∧
    (∀ a < 4, (par_nvm_corrupt_signature m).2.bytes a = 0xFF) := by
  unfold par_nvm_corrupt_signature nvm_erase
  rw [if_pos (by simpa [PAR_NVM_HEAD_ADDR] using h)]
  refine ⟨rfl, fun a ha => ?_⟩
  simp only
  rw [if_pos ⟨Nat.zero_le _, by simpa [PAR_NVM_HEAD_ADDR] using ha⟩]

/-- Evaluate `par_nvm_read_signature` in terms of the first four bytes. -/
theorem read_signature_eval (m2 : Nvm) (h4 : 4 ≤ m2.size) :
    par_nvm_read_signature m2 =
      if leVal [m2.bytes 0 % 256, m2.bytes 1 % 256, m2.bytes 2 % 256, m2.bytes 3 % 256] =
          PAR_NVM_SIGN
      then ePAR_OK else ePAR_ERROR := by
  unfold par_nvm_read_signature nvm_read
  rw [if_pos (by simpa [PAR_NVM_HEAD_ADDR] using h4)]
  have e : List.range 4 = [0, 1, 2, 3] := rfl
  rw [e]
  norm_num [PAR_NVM_HEAD_ADDR]

theorem headObjBytes_length (nb : Nat) : (headObjBytes nb).length = 8 := by
  simp [headObjBytes, leBytes]

theorem headObjBytes_low (nb : Nat) : ∀ a < 4, (headObjBytes nb).getD a 0 = 0 := by
  intro a ha
  interval_cases a <;> rfl

theorem getLastD_snoc2 (l : List Nvm) (a x y d : Nvm) :
    (a :: (l ++ [x, y])).getLastD d = y := by
  rw [List.getLastD_cons]
  induction l generalizing a with
  | nil => rfl
  | cons b t ih => rw [List.cons_append, List.getLastD_cons]; exact ih b

/-- The final region state of `par_nvm_write_all` is the last state of its
trace: the trace is a faithful operation-by-operation decomposition. -/
theorem write_all_eq_trace_last (env : ParEnv) (tbl : List ParCfg) (lut : List LutEntry)
    (s : ParState) (m : Nvm) :
    (par_nvm_write_all env tbl lut s m).2 =
      (par_nvm_write_all_trace env tbl lut s m).getLastD m := by
  unfold par_nvm_write_all par_nvm_write_all_trace par_nvm_write_header
  dsimp only
  rw [(write_all_foldl_eq env tbl lut s (List.range tbl.length) _ 0 _).1,
      (write_all_foldl_eq env tbl lut s (List.range tbl.length) _ 0 _).2]
  have hper : 0 + (List.range tbl.length).countP
      (fun num => (tbl.getD num default).persistant) = par_nvm_get_per_par tbl := by
    rw [Nat.zero_add]; rfl
  rw [hper]
  rcases hw : nvm_write
      (((par_nvm_corrupt_signature m).2 ::
         par_nvm_write_data_states env tbl lut s (par_nvm_corrupt_signature m).2
           (List.range tbl.length)).getLastD (par_nvm_corrupt_signature m).2)
      PAR_NVM_HEAD_ADDR (headObjBytes (par_nvm_get_per_par tbl)) with _ | x <;>
      simp only [hw] <;>
    exact (getLastD_snoc2 _ _ _ _ _).symm

/-- **C2** `par_nvm_write_all` corrupts (erases) the NVM signature before
writing any data object, and a valid signature is written again only by the
very last operation, after every persistent parameter's object and the
header have been written: at every intermediate point of the trace the
on-media signature reads invalid, so a power failure mid-rewrite is
detected on the next init.  (Hypotheses: the region holds at least the
8-byte header, and every persistent parameter's LUT address lies beyond
the 4 signature bytes, as `par_nvm_build_new_nvm_lut` guarantees.) -/
theorem par_nvm_write_all_signature_ordering (env : ParEnv) (tbl : List ParCfg)
    (lut : List LutEntry) (s : ParState) (m : Nvm)
    (hsz : 8 ≤ m.size)
    (hlut : ∀ num < tbl.length, (tbl.getD num default).persistant = true →
      4 ≤ par_nvm_get_nvm_lut_addr lut ((tbl.getD num default).id % 65536)) :
    (∀ mi ∈ (par_nvm_write_all_trace env tbl lut s m).dropLast,
        par_nvm_read_signature mi ≠ ePAR_OK) ∧
    par_nvm_read_signature ((par_nvm_write_all_trace env tbl lut s m).getLastD m) = ePAR_OK ∧
    (par_nvm_write_all env tbl lut s m).2 =
      (par_nvm_write_all_trace env tbl lut s m).getLastD m := by
  obtain ⟨hm1sz, hm1b⟩ := corrupt_signature_bytes m (by omega)
  set m1 := (par_nvm_corrupt_signature m).2 with hm1
  set ds := par_nvm_write_data_states env tbl lut s m1 (List.range tbl.length) with hdsEq
  have hinv := write_data_states_sig_preserved env tbl lut s hlut (List.range tbl.length) m1
    (fun i hi => List.mem_range.mp hi)
  set m2 := (m1 :: ds).getLastD m1 with hm2Eq
  have hm2mem : m2 ∈ m1 :: ds := by
    rw [hm2Eq, List.getLastD_cons]
    exact getLastD_mem_cons ds m1
  have hm2b : ∀ a < 4, m2.bytes a = 0xFF := by
    rcases List.mem_cons.mp hm2mem with h | h
    · rw [h]; exact hm1b
    · intro a ha; rw [(hinv m2 h).1 a ha]; exact hm1b a ha
  have hm2sz : m2.size = m.size := by
    rcases List.mem_cons.mp hm2mem with h | h
    · rw [h]; exact hm1sz
    · rw [(hinv m2 h).2]; exact hm1sz
  set nb := par_nvm_get_per_par tbl with hnbEq
  have hwh : nvm_write m2 PAR_NVM_HEAD_ADDR (headObjBytes nb) =
      some { m2 with bytes := fun a =>
        if PAR_NVM_HEAD_ADDR ≤ a ∧ a < PAR_NVM_HEAD_ADDR + (headObjBytes nb).length
        then (headObjBytes nb).getD (a - PAR_NVM_HEAD_ADDR) 0 else m2.bytes a } := by
    unfold nvm_write
    rw [if_pos]
    rw [headObjBytes_length, hm2sz]
    simpa [PAR_NVM_HEAD_ADDR] using hsz
  set mh : Nvm := { m2 with bytes := fun a =>
      if PAR_NVM_HEAD_ADDR ≤ a ∧ a < PAR_NVM_HEAD_ADDR + (headObjBytes nb).length
      then (headObjBytes nb).getD (a - PAR_NVM_HEAD_ADDR) 0 else m2.bytes a } with hmhEq
  have hmhb : ∀ a < 4, mh.bytes a = 0 := by
    intro a ha
    rw [hmhEq]
    simp only
    have hc : PAR_NVM_HEAD_ADDR ≤ a ∧ a < PAR_NVM_HEAD_ADDR + (headObjBytes nb).length := by
      rw [headObjBytes_length]
      unfold PAR_NVM_HEAD_ADDR
      omega
    rw [if_pos hc]
    have ha0 : a - PAR_NVM_HEAD_ADDR = a := by
      unfold PAR_NVM_HEAD_ADDR
      omega
    rw [ha0]
    exact headObjBytes_low nb a ha
  have hmhsz : mh.size = m.size := by rw [hmhEq]; exact hm2sz
  have hws : nvm_write mh PAR_NVM_HEAD_ADDR (leBytes 4 PAR_NVM_SIGN) =
      some { mh with bytes := fun a =>
        if PAR_NVM_HEAD_ADDR ≤ a ∧ a < PAR_NVM_HEAD_ADDR + (leBytes 4 PAR_NVM_SIGN).length
        then (leBytes 4 PAR_NVM_SIGN).getD (a - PAR_NVM_HEAD_ADDR) 0 else mh.bytes a } := by
    unfold nvm_write
    rw [if_pos]
    rw [hmhsz]
    rw [show (leBytes 4 PAR_NVM_SIGN).length = 4 from rfl]
    unfold PAR_NVM_HEAD_ADDR
    omega
  set msig : Nvm := { mh with bytes := fun a =>
      if PAR_NVM_HEAD_ADDR ≤ a ∧ a < PAR_NVM_HEAD_ADDR + (leBytes 4 PAR_NVM_SIGN).length
      then (leBytes 4 PAR_NVM_SIGN).getD (a - PAR_NVM_HEAD_ADDR) 0 else mh.bytes a }
    with hmsigEq
  have hsig2 : (par_nvm_write_signature mh).2 = msig := by
    unfold par_nvm_write_signature
    rw [hws]
  have hmsigsz : msig.size = m.size := by rw [hmsigEq]; exact hmhsz
  have hmsigb : ∀ a < 4, msig.bytes a = (leBytes 4 PAR_NVM_SIGN).getD a 0 := by
    intro a ha
    rw [hmsigEq]
    simp only
    have hc : PAR_NVM_HEAD_ADDR ≤ a ∧ a < PAR_NVM_HEAD_ADDR + (leBytes 4 PAR_NVM_SIGN).length := by
      rw [show (leBytes 4 PAR_NVM_SIGN).length = 4 from rfl]
      unfold PAR_NVM_HEAD_ADDR
      omega
    rw [if_pos hc]
    have ha0 : a - PAR_NVM_HEAD_ADDR = a := by
      unfold PAR_NVM_HEAD_ADDR
      omega
    rw [ha0]
  have htr : par_nvm_write_all_trace env tbl lut s m = (m1 :: ds) ++ [mh, msig] := by
    unfold par_nvm_write_all_trace
    dsimp only
    rw [← hm1, ← hdsEq, ← hm2Eq, ← hnbEq, hwh]
    dsimp only
    rw [hsig2]
  have hlast : (par_nvm_write_all_trace env tbl lut s m).getLastD m = msig := by
    rw [htr]
    rw [show (m1 :: ds) ++ [mh, msig] = m1 :: (ds ++ [mh, msig]) from rfl]
    exact getLastD_snoc2 ds m1 mh msig m
  refine ⟨?_, ?_, write_all_eq_trace_last env tbl lut s m⟩
  · intro mi hmi
    rw [htr] at hmi
    have hmi2 : mi ∈ (m1 :: ds) ++ [mh] := by
      have hsplit : (m1 :: ds) ++ [mh, msig] = ((m1 :: ds) ++ [mh]) ++ [msig] := by simp
      rw [hsplit, List.dropLast_concat] at hmi
      exact hmi
    rcases List.mem_append.mp hmi2 with hmem | hmem
    · have hb : ∀ a < 4, mi.bytes a = 0xFF := by
        rcases List.mem_cons.mp hmem with h | h
        · rw [h]; exact hm1b
        · intro a ha; rw [(hinv mi h).1 a ha]; exact hm1b a ha
      have hs4 : 4 ≤ mi.size := by
        rcases List.mem_cons.mp hmem with h | h
        · rw [h, hm1sz]; omega
        · rw [(hinv mi h).2, hm1sz]; omega
      rw [read_signature_eval mi hs4, hb 0 (by omega), hb 1 (by omega), hb 2 (by omega),
        hb 3 (by omega), if_neg (by decide)]
      decide
    · have hmh2 : mi = mh := by simpa using hmem
      rw [hmh2, read_signature_eval mh (by rw [hmhsz]; omega), hmhb 0 (by omega),
        hmhb 1 (by omega), hmhb 2 (by omega), hmhb 3 (by omega), if_neg (by decide)]
      decide
  · rw [hlast, read_signature_eval msig (by rw [hmsigsz]; omega), hmsigb 0 (by omega),
      hmsigb 1 (by omega), hmsigb 2 (by omega), hmsigb 3 (by omega), if_pos (by decide)]

/-- LUT mapping the two `tblW` ids to the stride-8 addresses that
`par_nvm_build_new_nvm_lut` assigns. -/
def lutB : List LutEntry := [⟨40, 1⟩, ⟨48, 2⟩]

/-- A fresh (fully erased) 64-byte "Parameters" region. -/
def mBlank : Nvm := ⟨64, fun _ => 0xFF⟩

/-- Witness for C2: rewriting `tblW` onto a blank region. -/
theorem par_nvm_write_all_signature_ordering_witness :
    (∀ mi ∈ (par_nvm_write_all_trace envW tblW lutB sW mBlank).dropLast,
        par_nvm_read_signature mi ≠ ePAR_OK) ∧
    par_nvm_read_signature
      ((par_nvm_write_all_trace envW tblW lutB sW mBlank).getLastD mBlank) = ePAR_OK ∧
    (par_nvm_write_all envW tblW lutB sW mBlank).2 =
      (par_nvm_write_all_trace envW tblW lutB sW mBlank).getLastD mBlank :=
  par_nvm_write_all_signature_ordering envW tblW lutB sW mBlank (by decide) (by decide)

/-! ## Behaviour of `par_nvm_init` on stored images (claims C3 and C4) -/

/-- Under a valid signature and a valid header carrying count `nb > 0`,
`par_nvm_validate_header` passes the count through untouched. -/
theorem par_nvm_validate_header_ok (env : ParEnv) (tbl : List ParCfg)
    (lut : List LutEntry) (s : ParState) (m : Nvm) (nb : Nat)
    (hhead : par_nvm_read_header m = (ePAR_OK, nb)) (hnb : 0 < nb) :
    par_nvm_validate_header env tbl lut s m = (ePAR_OK, nb, lut, m) := by
  unfold par_nvm_validate_header
  rw [hhead]
  dsimp only
  rw [if_neg (by decide), if_pos ⟨rfl, hnb⟩]

/-- With persistent parameters present, a valid signature and a valid
positive header, `par_nvm_init` reduces to the load-pass dispatch. -/
theorem par_nvm_init_load_dispatch (env : ParEnv) (tbl : List ParCfg)
    (s : ParState) (lut : List LutEntry) (m : Nvm) (nb : Nat)
    (hper : 0 < par_nvm_get_per_par tbl)
    (hsig : par_nvm_read_signature m = ePAR_OK)
    (hhead : par_nvm_read_header m = (ePAR_OK, nb)) (hnb : 0 < nb) :
    par_nvm_init env tbl s lut m =
      (let l := par_nvm_load_all env tbl s lut m nb
       if l.1 = ePAR_ERROR_CRC then
         let r := par_nvm_reset_all env tbl l.2.2 l.2.1 m
         (r.1, l.2.1, r.2.1, r.2.2)
       else if l.1 = ePAR_ERROR_NVM then
         (l.1, (par_set_all_to_default env tbl l.2.1).2, l.2.2, m)
       else (l.1, l.2.1, l.2.2, m)) := by
  unfold par_nvm_init
  rw [if_pos hper, hsig]
  rw [if_pos rfl]
  rw [par_nvm_validate_header_ok env tbl lut s m nb hhead hnb]
  dsimp only
  rw [if_pos rfl]

/-- NVM image for the corrupt-object scenario: valid signature, valid
header with `obj_nb = 2` (CRC-16 of bytes `[2,0]` is `0x75A4`), a valid
first object (id 1, value 5, object CRC 239), and a second object whose
stored CRC byte 0 does not match its contents. -/
def imgCrc : List Nat :=
  [0x55, 0xAA, 0x00, 0xFF, 2, 0, 164, 117] ++ List.replicate 32 0 ++
  [1, 0, 4, 239, 5, 0, 0, 0] ++
  [2, 0, 4, 0, 9, 0, 0, 0] ++ List.replicate 8 0xFF

/-- The 64-byte region holding `imgCrc`. -/
def mCrc : Nvm := { size := 64, bytes := fun a => imgCrc.getD a 0xFF }

set_option maxRecDepth 400000 in
/-- **C3 counterexample** The claim says that after a single corrupt object
all parameters revert to defaults and the CRC error / set-to-default
condition is surfaced in the returned status.  On `imgCrc` (second object
corrupt) `par_nvm_init` returns `ePAR_OK` — the CRC condition is absorbed
by the successful rewrite — and parameter 0, loaded from the image before
the corruption was hit, keeps the loaded value 5 instead of reverting to
its default 3. -/
theorem par_nvm_init_crc_counterexample :
    par_nvm_calc_obj_crc (readObj [2, 0, 4, 0, 9, 0, 0, 0]) ≠
      (readObj [2, 0, 4, 0, 9, 0, 0, 0]).crc ∧
    (par_nvm_init envW tblW sW lutW0 mCrc).1 = ePAR_OK ∧
    (par_nvm_init envW tblW sW lutW0 mCrc).1 ≠ ePAR_ERROR_CRC ∧
    (par_nvm_init envW tblW sW lutW0 mCrc).2.1.vals = [5, 7] ∧
    (tblW.getD 0 default).defVal = 3 := by decide

/-- **C3 (amended)** If during the load pass a stored object's checksum
fails to verify, the load is aborted exactly there (`ePAR_ERROR_CRC`, live
state and LUT unchanged from that iteration on — no later object is
applied) and `par_nvm_init` escalates to `par_nvm_reset_all`: the LUT is
rebuilt from the descriptor table and every persistent parameter's
**current live value** is rewritten to NVM.  Parameters loaded before the
corrupt object keep their loaded values — there is no revert to defaults —
and the status returned by init is the status of the rewrite (`ePAR_OK`
when the writes succeed), so the CRC condition is not surfaced. -/
theorem par_nvm_init_crc_abort_and_rewrite (env : ParEnv) (tbl : List ParCfg)
    (s : ParState) (lut : List LutEntry) (m : Nvm) (nb : Nat)
    (s2 : ParState) (lut2 : List LutEntry)
    (hper : 0 < par_nvm_get_per_par tbl)
    (hsig : par_nvm_read_signature m = ePAR_OK)
    (hhead : par_nvm_read_header m = (ePAR_OK, nb)) (hnb : 0 < nb)
    (hload : par_nvm_load_all env tbl s lut m nb = (ePAR_ERROR_CRC, s2, lut2)) :
    (∀ (nb2 fuel par_num obj_addr : Nat) (o : DataObj) (s3 : ParState)
       (lut3 : List LutEntry),
       par_num < nb2 → par_nvm_calc_obj_crc o ≠ o.crc →
       par_nvm_load_loop env tbl m nb2 (fuel + 1) par_num obj_addr (some o) s3 lut3 =
         (ePAR_ERROR_CRC, s3, lut3)) ∧
    par_nvm_init env tbl s lut m =
      ((par_nvm_reset_all env tbl lut2 s2 m).1, s2,
       (par_nvm_reset_all env tbl lut2 s2 m).2.1,
       (par_nvm_reset_all env tbl lut2 s2 m).2.2) ∧
    (par_nvm_reset_all env tbl lut2 s2 m).2.1 = par_nvm_build_new_nvm_lut tbl lut2 := by
  refine ⟨?_, ?_, rfl⟩
  · intro nb2 fuel par_num obj_addr o s3 lut3 hlt hcrc
    simp only [par_nvm_load_loop]
    rw [if_pos hlt]
    rw [if_neg hcrc]
  · rw [par_nvm_init_load_dispatch env tbl s lut m nb hper hsig hhead hnb]
    rw [hload]
    rw [if_pos rfl]

set_option maxRecDepth 400000 in
/-- Witness for the amended C3 on `imgCrc`: the load aborts at the second
(corrupt) object with parameter 0 already holding the loaded value 5, and
init escalates to the full rewrite. -/
theorem par_nvm_init_crc_abort_and_rewrite_witness :
    (∀ (nb2 fuel par_num obj_addr : Nat) (o : DataObj) (s3 : ParState)
       (lut3 : List LutEntry),
       par_num < nb2 → par_nvm_calc_obj_crc o ≠ o.crc →
       par_nvm_load_loop envW tblW mCrc nb2 (fuel + 1) par_num obj_addr (some o) s3 lut3 =
         (ePAR_ERROR_CRC, s3, lut3)) ∧
    par_nvm_init envW tblW sW lutW0 mCrc =
      ((par_nvm_reset_all envW tblW [⟨40, 1⟩, ⟨0, 0⟩] ⟨true, [5, 7]⟩ mCrc).1,
       ⟨true, [5, 7]⟩,
       (par_nvm_reset_all envW tblW [⟨40, 1⟩, ⟨0, 0⟩] ⟨true, [5, 7]⟩ mCrc).2.1,
       (par_nvm_reset_all envW tblW [⟨40, 1⟩, ⟨0, 0⟩] ⟨true, [5, 7]⟩ mCrc).2.2) ∧
    (par_nvm_reset_all envW tblW [⟨40, 1⟩, ⟨0, 0⟩] ⟨true, [5, 7]⟩ mCrc).2.1 =
      par_nvm_build_new_nvm_lut tblW [⟨40, 1⟩, ⟨0, 0⟩] :=
  par_nvm_init_crc_abort_and_rewrite envW tblW sW lutW0 mCrc 2 ⟨true, [5, 7]⟩
    [⟨40, 1⟩, ⟨0, 0⟩] (by decide) (by decide) (by decide) (by decide) (by decide)

/-- NVM image predating the second persistent descriptor of `tblW`: valid
signature, valid header with `obj_nb = 1` (CRC-16 of `[1,0]` is `0x20F7`),
and a single valid object (id 1, value 5).  No object for id 2 exists. -/
def imgOld : List Nat :=
  [0x55, 0xAA, 0x00, 0xFF, 1, 0, 247, 32] ++ List.replicate 32 0 ++
  [1, 0, 4, 239, 5, 0, 0, 0] ++ List.replicate 16 0xFF

/-- The 64-byte region holding `imgOld`. -/
def mOld : Nvm := { size := 64, bytes := fun a => imgOld.getD a 0xFF }

set_option maxRecDepth 400000 in
/-- **C4 counterexample** The claim says that a persistent descriptor absent
from a valid stored image is appended by `par_nvm_init`: assigned a LUT
address, written individually, with the header `object_count` rewritten to
the increased count.  Running init over `imgOld` (which predates the
persistent id 2 of `tblW`): the status is `ePAR_OK` and the stored
parameter keeps its value, but the header count byte still reads 1 (not
2), the byte where an appended object would start (offset 48) still reads
erased `0xFF`, and id 2's LUT entry remains the zeroed `⟨0, 0⟩` — nothing
is appended. -/
theorem par_nvm_init_no_append_counterexample :
    (par_nvm_init envW tblW sW lutW0 mOld).1 = ePAR_OK ∧
    (par_nvm_init envW tblW sW lutW0 mOld).2.1.vals = [5, 7] ∧
    (par_nvm_init envW tblW sW lutW0 mOld).2.2.2.bytes 4 = 1 ∧
    (par_nvm_init envW tblW sW lutW0 mOld).2.2.2.bytes 48 = 0xFF ∧
    (par_nvm_init envW tblW sW lutW0 mOld).2.2.1.getD 1 default = (⟨0, 0⟩ : LutEntry) := by
  decide

/-- **C4 (amended)** When `par_nvm_init` runs against a valid NVM image and
the load pass succeeds, init performs no further NVM operation at all: the
region is returned byte-for-byte unchanged — no object is written for
persistent descriptors absent from the image, the header `object_count` is
not rewritten, and such descriptors keep their default live values and
their (zero) LUT entries.  Only the error paths write to NVM. -/
theorem par_nvm_init_valid_load_no_append (env : ParEnv) (tbl : List ParCfg)
    (s : ParState) (lut : List LutEntry) (m : Nvm) (nb : Nat)
    (s2 : ParState) (lut2 : List LutEntry)
    (hper : 0 < par_nvm_get_per_par tbl)
    (hsig : par_nvm_read_signature m = ePAR_OK)
    (hhead : par_nvm_read_header m = (ePAR_OK, nb)) (hnb : 0 < nb)
    (hload : par_nvm_load_all env tbl s lut m nb = (ePAR_OK, s2, lut2)) :
    par_nvm_init env tbl s lut m = (ePAR_OK, s2, lut2, m) := by
  rw [par_nvm_init_load_dispatch env tbl s lut m nb hper hsig hhead hnb]
  rw [hload]
  dsimp only
  rw [if_neg (by decide : ¬ePAR_OK = ePAR_ERROR_CRC),
      if_neg (by decide : ¬ePAR_OK = ePAR_ERROR_NVM)]

set_option maxRecDepth 400000 in
/-- Witness for the amended C4 on `imgOld`: init returns the region
unchanged, parameter 1 (id 2) staying at its default with LUT entry 0. -/
theorem par_nvm_init_valid_load_no_append_witness :
    par_nvm_init envW tblW sW lutW0 mOld =
      (ePAR_OK, ⟨true, [5, 7]⟩, [⟨40, 1⟩, ⟨0, 0⟩], mOld) :=
  par_nvm_init_valid_load_no_append envW tblW sW lutW0 mOld 1 ⟨true, [5, 7]⟩
    [⟨40, 1⟩, ⟨0, 0⟩] (by decide) (by decide) (by decide) (by decide) (by decide)
